import Mathlib

/-!
Shallow embedding of the core of the `a3s` terminal AWS-resource browser:
the keyboard navigation controller (`useNavigation`), the TTL cache and
fetch orchestration (`ResourceCacheProvider` / `useResources`), the backend
provider factory (`ProviderFactory`), and the input-listener arbitration of
`ResourceList`.  Each definition is translated directly from the TypeScript
source; theorems below settle the frozen claims about them.
-/

namespace A3S

/-! ### Navigation controller (src/hooks/useNavigation.ts)

`moveUp`/`moveDown` are the state updaters returned by `useNavigation`:
  moveUp:   prev === 0 ? itemCount - 1 : prev - 1
  moveDown: prev === itemCount - 1 ? 0 : prev + 1
JavaScript numbers here behave as mathematical integers, so the index is
modelled as `Int`.
-/

def moveUp (itemCount prev : Int) : Int :=
  if prev = 0 then itemCount - 1 else prev - 1

def moveDown (itemCount prev : Int) : Int :=
  if prev = itemCount - 1 then 0 else prev + 1

/-- A discrete navigation input: one `moveUp` or `moveDown` call. -/
inductive Move where
  | up
  | down
deriving Repr, DecidableEq

/-- Apply a finite sequence of move calls to a starting index. -/
def applyMoves (itemCount : Int) : List Move → Int → Int
  | [], i => i
  | Move.up :: ms, i => applyMoves itemCount ms (moveUp itemCount i)
  | Move.down :: ms, i => applyMoves itemCount ms (moveDown itemCount i)

/-- The body of the `useEffect` in `useNavigation` that runs whenever
`isActive` or `itemCount` changes (so in particular on the false→true
transition of `isActive`):

  if (isActive) { setSelectedIndex(prev => prev >= itemCount ? 0 : prev) }
-/
def activationReset (itemCount : Int) (isActive : Bool) (prev : Int) : Int :=
  if isActive then (if itemCount ≤ prev then 0 else prev) else prev

/-! ### Resource cache (src/hooks/ResourceCacheContext.tsx) -/

/-- An EC2 resource record as produced by the providers. -/
structure EC2Instance where
  id : String
  name : String
  state : String
  type : String
  publicIp : Option String := none
  privateIp : Option String := none
  availabilityZone : Option String := none
  launchTime : Option String := none
deriving Repr, DecidableEq

structure CacheEntry where
  data : List EC2Instance
  timestamp : Nat
deriving Repr, DecidableEq

/-- Source: `CACHE_TTL = 5 * 60 * 1000` — 5 minutes in milliseconds. -/
def CACHE_TTL : Nat := 5 * 60 * 1000

/-- The provider's `Map<string, CacheEntry>`, as an association list
(first binding for a key wins, and `cacheSet` replaces, so each key has at
most one live binding). -/
abbrev Cache := List (String × CacheEntry)

def cacheFind : Cache → String → Option CacheEntry
  | [], _ => none
  | (k, e) :: rest, key => if k = key then some e else cacheFind rest key

def cacheDelete (c : Cache) (key : String) : Cache :=
  c.filter (fun p => p.1 != key)

/-- Source `Map.set` semantics: bind `key`, replacing any previous binding. -/
def cacheSet (c : Cache) (key : String) (e : CacheEntry) : Cache :=
  (key, e) :: cacheDelete c key

/-- Source `getCache`: returns the cached payload, or `none`; an entry with
`now - timestamp > CACHE_TTL` is deleted (prune-on-read) and reported as a
miss.  Returns the possibly pruned cache alongside the value.  Timestamps
never exceed `now` in any real execution, and `Nat` truncation at zero
agrees with the JS comparison (`negative > TTL` is false) anyway. -/
def getCache (c : Cache) (key : String) (now : Nat) :
    Option (List EC2Instance) × Cache :=
  match cacheFind c key with
  | none => (none, c)
  | some e =>
    if CACHE_TTL < now - e.timestamp then (none, cacheDelete c key)
    else (some e.data, c)

/-- Source `getCacheAge`: age of a live entry, `none` for a missing or expired one
(an expired entry is also pruned, exactly as in `getCache`). -/
def getCacheAge (c : Cache) (key : String) (now : Nat) :
    Option Nat × Cache :=
  match cacheFind c key with
  | none => (none, c)
  | some e =>
    if CACHE_TTL < now - e.timestamp then (none, cacheDelete c key)
    else (some (now - e.timestamp), c)

/-- Source `clearCache`: replace the map with a fresh empty one. -/
def clearCache (_ : Cache) : Cache := []

/-! ### Fetch orchestration (src/hooks/useResources.ts)

`fetchData` is the body of the data-loading effect; `refreshRun` is the
body of the `refresh` callback.  The single asynchronous step —
`provider.listEC2()` — is modelled by the `backend` argument: the outcome
the await would produce (a payload, or a thrown value).  The five
`useState` cells come back together as a `FetchState`; the `invoked` flag
records whether the backend capability was called at all. -/

/-- A value thrown by the backend call: an `Error` instance carrying a
message, or any other thrown value. -/
inductive Thrown where
  | errObj (message : String)
  | nonError
deriving Repr, DecidableEq

/-- Source: `err instanceof Error ? err.message : 'Unknown error occurred'` -/
def errorMessage : Thrown → String
  | .errObj m => m
  | .nonError => "Unknown error occurred"

/-- Outcome of awaiting `provider.listEC2()`. -/
inductive BackendResult where
  | ok (instances : List EC2Instance)
  | thrown (t : Thrown)
deriving Repr, DecidableEq

structure FetchState where
  data : List EC2Instance
  loading : Bool
  error : Option String
  fromCache : Bool
  cacheAge : Option Nat
deriving Repr, DecidableEq

structure FetchOutcome where
  state : FetchState
  cache : Cache
  invoked : Bool
deriving Repr, DecidableEq

/-- Source: `const cacheKey = resourceType + '-resources'` -/
def cacheKey (resourceType : String) : String := resourceType ++ "-resources"

/-- The data-loading effect of `useResources` (cache context present):
non-`ec2` categories reset to an empty, non-loading, non-error state
without touching the backend; for `ec2` a live cache entry is served with
`fromCache = true`; otherwise the backend is invoked, writing the cache on
success and leaving it unwritten on a thrown error. -/
def fetchData (resourceType : String) (c : Cache) (now : Nat)
    (backend : BackendResult) : FetchOutcome :=
  if resourceType ≠ "ec2" then
    { state := ⟨[], false, none, false, none⟩, cache := c, invoked := false }
  else
    let key := cacheKey resourceType
    match getCache c key now with
    | (some d, c1) =>
      { state := ⟨d, false, none, true, (getCacheAge c key now).1⟩
        cache := c1, invoked := false }
    | (none, c1) =>
      match backend with
      | .ok instances =>
        { state := ⟨instances, false, none, false, some 0⟩
          cache := cacheSet c1 key ⟨instances, now⟩, invoked := true }
      | .thrown t =>
        { state := ⟨[], false, some (errorMessage t), false, none⟩
          cache := c1, invoked := true }

/-- The `refresh` callback of `useResources` (cache context present): for a
non-`ec2` category it returns early leaving every state cell as it was;
for `ec2` it always invokes the backend, never consulting the cache. -/
def refreshRun (resourceType : String) (prior : FetchState) (c : Cache)
    (now : Nat) (backend : BackendResult) : FetchOutcome :=
  if resourceType ≠ "ec2" then
    { state := prior, cache := c, invoked := false }
  else
    match backend with
    | .ok instances =>
      { state := ⟨instances, false, none, false, some 0⟩
        cache := cacheSet c (cacheKey resourceType) ⟨instances, now⟩
        invoked := true }
    | .thrown t =>
      { state := ⟨[], false, some (errorMessage t), false, none⟩
        cache := c, invoked := true }

/-! ### Provider factory (src/providers/factory.ts) -/

inductive Provider where
  | sdkProvider
  | cliProvider
deriving Repr, DecidableEq

def validBackends : List String := ["sdk", "cli", "auto"]

/-- Source `String.prototype.toLowerCase()` on the backend-mode strings in play
(ASCII): lowercase every character. -/
def strToLower (s : String) : String := String.mk (s.data.map Char.toLower)

/-- Source `ProviderFactory.getBackendType`: reads `A3S_BACKEND` (modelled as the
`env` argument, `none` when unset), lowercases it, treats a missing or
empty value as `'auto'`, and throws on anything outside
`{sdk, cli, auto}`. -/
def getBackendType (env : Option String) : Except String String :=
  match env with
  | none => .ok "auto"
  | some s =>
    let backend := strToLower s
    if backend = "" then .ok "auto"
    else if validBackends.contains backend then .ok backend
    else .error ("Invalid A3S_BACKEND: " ++ backend ++
      ". Must be one of: sdk, cli, auto")

/-- Source `ProviderFactory.create`: resolve the backend type, then instantiate
the matching provider; `'auto'` statically prefers the SDK provider.  The
final branch mirrors the unreachable `default` of the `switch`. -/
def create (env : Option String) : Except String Provider :=
  match getBackendType env with
  | .error m => .error m
  | .ok "sdk" => .ok .sdkProvider
  | .ok "cli" => .ok .cliProvider
  | .ok "auto" => .ok .sdkProvider
  | .ok other => .error ("Invalid A3S_BACKEND: " ++ other ++
    ". Must be one of: sdk, cli, auto")

/-! ### Input listeners (src/ui/ResourceList.tsx + useNavigation)

`ResourceList` mounts two Ink `useInput` listeners: first the one inside
`useNavigation` (movement / confirm / quit keys), then its own (back /
retry keys).  Ink invokes the callback of every listener whose `isActive`
option is true on every key event; each callback then pattern-matches the
key and acts only on its own keys.  A key event delivers either a
printable character in `input`, or exactly one special-key flag with an
empty `input`. -/

structure KeyEvent where
  input : String
  upArrow : Bool
  downArrow : Bool
  leftArrow : Bool
  escape : Bool
  ret : Bool
deriving Repr, DecidableEq

/-- The key events Ink actually generates: a printable character, or one
special key. -/
inductive InkKey where
  | char (c : String)
  | up
  | down
  | left
  | esc
  | enter
deriving Repr, DecidableEq

def keyEvent : InkKey → KeyEvent
  | .char c => ⟨c, false, false, false, false, false⟩
  | .up => ⟨"", true, false, false, false, false⟩
  | .down => ⟨"", false, true, false, false, false⟩
  | .left => ⟨"", false, false, true, false, false⟩
  | .esc => ⟨"", false, false, false, true, false⟩
  | .enter => ⟨"", false, false, false, false, true⟩

/-- What the navigation callback does with a key. -/
inductive NavAction where
  | navUp
  | navDown
  | navSelect
  | navQuit
deriving Repr, DecidableEq

/-- What the `ResourceList` callback does with a key. -/
inductive ListAction where
  | goBack
  | doRefresh
deriving Repr, DecidableEq

/-- The `useInput` callback registered by `useNavigation` (L1).
`hasOnSelect` / `hasOnQuit` record whether the optional callbacks were
supplied. -/
def navHandler (hasOnSelect hasOnQuit : Bool) (k : KeyEvent) :
    Option NavAction :=
  if k.upArrow || (k.input == "k") then some .navUp
  else if k.downArrow || (k.input == "j") then some .navDown
  else if k.ret && hasOnSelect then some .navSelect
  else if (k.input == "q") && hasOnQuit then some .navQuit
  else none

/-- The `useInput` callback registered directly by `ResourceList` (L2):
left-arrow / escape go back (when `onBack` is supplied); `'r'` refreshes
only while an error is displayed. -/
def listHandler (hasOnBack hasOnRefresh hasError : Bool) (k : KeyEvent) :
    Option ListAction :=
  if k.leftArrow || k.escape then
    (if hasOnBack then some .goBack else none)
  else if (k.input == "r") && hasOnRefresh && hasError then some .doRefresh
  else none

/-- Ink's per-listener gate: a callback runs only when the listener's
`isActive` option is true. -/
def dispatch {α : Type} (active : Bool) (handler : KeyEvent → Option α)
    (k : KeyEvent) : Option α :=
  if active then handler k else none

/-! ### Helper lemmas -/

theorem moveUp_bounds (n i : Int) (hn : 1 ≤ n) (h0 : 0 ≤ i) (h1 : i < n) :
    0 ≤ moveUp n i ∧ moveUp n i < n := by
  unfold moveUp; split <;> omega

theorem moveDown_bounds (n i : Int) (hn : 1 ≤ n) (h0 : 0 ≤ i) (h1 : i < n) :
    0 ≤ moveDown n i ∧ moveDown n i < n := by
  unfold moveDown; split <;> omega

theorem applyMoves_bounds (n : Int) (hn : 1 ≤ n) (ms : List Move) (i : Int)
    (h0 : 0 ≤ i) (h1 : i < n) :
    0 ≤ applyMoves n ms i ∧ applyMoves n ms i < n := by
  induction ms generalizing i with
  | nil => exact ⟨h0, h1⟩
  | cons m ms ih =>
    cases m with
    | up =>
      obtain ⟨a, b⟩ := moveUp_bounds n i hn h0 h1
      exact ih (moveUp n i) a b
    | down =>
      obtain ⟨a, b⟩ := moveDown_bounds n i hn h0 h1
      exact ih (moveDown n i) a b

theorem cacheFind_delete_self (c : Cache) (key : String) :
    cacheFind (cacheDelete c key) key = none := by
  induction c with
  | nil => rfl
  | cons p rest ih =>
    obtain ⟨k', e'⟩ := p
    by_cases h : k' = key <;>
      simp [cacheDelete, List.filter_cons, h, cacheFind] at ih ⊢ <;>
      simpa [cacheDelete] using ih

theorem cacheFind_delete_ne (c : Cache) (key k : String) (h : k ≠ key) :
    cacheFind (cacheDelete c key) k = cacheFind c k := by
  induction c with
  | nil => rfl
  | cons p rest ih =>
    obtain ⟨k', e'⟩ := p
    by_cases h' : k' = key
    · subst h'
      simp [cacheDelete, List.filter_cons, cacheFind, Ne.symm h] at ih ⊢
      simpa [cacheDelete] using ih
    · have hf : (k' != key) = true := by simpa using h'
      simp only [cacheDelete, List.filter_cons, hf, if_true]
      by_cases h'' : k' = k
      · simp [cacheFind, h'']
      · simp only [cacheFind, h'', if_neg h'']
        simpa [cacheDelete] using ih

theorem cacheFind_set_self (c : Cache) (key : String) (e : CacheEntry) :
    cacheFind (cacheSet c key e) key = some e := by
  simp [cacheSet, cacheFind]

/-! ### Claims -/

/-- C2: for every itemCount ≥ 1, starting from selectedIndex = 0, any
finite sequence of moveUp/moveDown calls leaves the index in
[0, itemCount); in particular for itemCount = 1 every sequence leaves the
index at 0. -/
theorem c2_nav_index_invariant (n : Int) (hn : 1 ≤ n) (ms : List Move) :
    (0 ≤ applyMoves n ms 0 ∧ applyMoves n ms 0 < n) ∧
      (n = 1 → applyMoves n ms 0 = 0) := by
  have h := applyMoves_bounds n hn ms 0 le_rfl hn
  exact ⟨h, fun h1 => by omega⟩

theorem c2_nav_index_invariant_witness :
    (1 : Int) ≤ 3 ∧
      ((0 ≤ applyMoves 3 [Move.up, Move.down, Move.down] 0 ∧
          applyMoves 3 [Move.up, Move.down, Move.down] 0 < 3) ∧
        ((3 : Int) = 1 → applyMoves 3 [Move.up, Move.down, Move.down] 0 = 0)) :=
  ⟨by decide, c2_nav_index_invariant 3 (by decide) [Move.up, Move.down, Move.down]⟩

/-- C10: with itemCount = 0 the moves leave the [0, itemCount) range:
moveUp from index 0 yields -1, and moveDown increments every non-negative
index without bound (its wrap condition `prev = itemCount - 1 = -1` never
holds for a non-negative index), so no in-range invariant holds over an
empty list. -/
theorem c10_empty_list_escape (i : Int) (h : 0 ≤ i) :
    moveUp 0 0 = -1 ∧ moveDown 0 i = i + 1 ∧
      ¬(0 ≤ moveUp 0 0 ∧ moveUp 0 0 < 0) := by
  refine ⟨by decide, ?_, by decide⟩
  unfold moveDown
  rw [if_neg (by omega)]

theorem c10_empty_list_escape_witness :
    (0 : Int) ≤ 5 ∧
      (moveUp 0 0 = -1 ∧ moveDown 0 5 = 5 + 1 ∧
        ¬(0 ≤ moveUp 0 0 ∧ moveUp 0 0 < 0)) :=
  ⟨by decide, c10_empty_list_escape 5 (by decide)⟩

/-- C9 counterexample: the claim says a false→true transition of the
active flag resets selectedIndex to 0 for every prior value and every
itemCount; but with itemCount = 5 and prior index 1 the activation effect
leaves the index at 1. -/
theorem c9_activation_counterexample :
    activationReset 5 true 1 = 1 ∧ activationReset 5 true 1 ≠ 0 := by
  decide

/-- C9 amended: on a false→true transition of the active flag the effect
resets selectedIndex to 0 only when it is out of bounds
(selectedIndex ≥ itemCount); an in-bounds index is preserved — so for
itemCount > 0 and a non-negative prior index, the post-activation index
lies in [0, itemCount). -/
theorem c9_activation_reset_amended (n p : Int) (hn : 0 < n) (hp : 0 ≤ p) :
    (n ≤ p → activationReset n true p = 0) ∧
      (p < n → activationReset n true p = p) ∧
      (0 ≤ activationReset n true p ∧ activationReset n true p < n) := by
  unfold activationReset
  refine ⟨fun h => ?_, fun h => ?_, ?_⟩
  · rw [if_pos rfl, if_pos h]
  · rw [if_pos rfl, if_neg (by omega)]
  · rw [if_pos rfl]; split <;> omega

theorem c9_activation_reset_amended_witness :
    (0 : Int) < 5 ∧ (0 : Int) ≤ 7 ∧
      (((5 : Int) ≤ 7 → activationReset 5 true 7 = 0) ∧
        ((7 : Int) < 5 → activationReset 5 true 7 = 7) ∧
        (0 ≤ activationReset 5 true 7 ∧ activationReset 5 true 7 < 5)) :=
  ⟨by decide, by decide, c9_activation_reset_amended 5 7 (by decide) (by decide)⟩

/-- C5: for every resource category other than `"ec2"`, the data-loading
effect returns `{data = [], loading = false, error = none}` (with no cache
flags set), leaves the cache untouched, and never invokes the backend. -/
theorem c5_unsupported_category (ty : String) (h : ty ≠ "ec2") (c : Cache)
    (now : Nat) (b : BackendResult) :
    fetchData ty c now b =
      ⟨⟨[], false, none, false, none⟩, c, false⟩ := by
  simp [fetchData, h]

theorem c5_unsupported_category_witness :
    "s3" ≠ "ec2" ∧
      fetchData "s3" [(cacheKey "s3", ⟨[], 0⟩)] 100 (.ok []) =
        ⟨⟨[], false, none, false, none⟩, [(cacheKey "s3", ⟨[], 0⟩)], false⟩ :=
  ⟨by decide, c5_unsupported_category "s3" (by decide) [(cacheKey "s3", ⟨[], 0⟩)] 100 (.ok [])⟩

/-- C7: for the supported category, `refresh` always invokes the backend
(never consulting the cache or the TTL) and on success overwrites the
cache entry for the category key with the new payload and timestamp `now`,
regardless of what entry (of whatever age) the cache held — including one
written at the very same instant. -/
theorem c7_refresh_overwrites (c : Cache) (now : Nat) (xs ys : List EC2Instance)
    (prior : FetchState) :
    (∀ b, (refreshRun "ec2" prior c now b).invoked = true) ∧
      refreshRun "ec2" prior c now (.ok xs) =
        ⟨⟨xs, false, none, false, some 0⟩,
          cacheSet c (cacheKey "ec2") ⟨xs, now⟩, true⟩ ∧
      cacheFind (refreshRun "ec2" prior c now (.ok xs)).cache (cacheKey "ec2") =
        some ⟨xs, now⟩ ∧
      cacheFind (refreshRun "ec2" prior
          (cacheSet c (cacheKey "ec2") ⟨ys, now⟩) now (.ok xs)).cache
        (cacheKey "ec2") = some ⟨xs, now⟩ := by
  refine ⟨fun b => by cases b <;> simp [refreshRun], by simp [refreshRun],
    ?_, ?_⟩ <;> simp [refreshRun, cacheFind_set_self]

/-- C8: `clearCache` empties the cache — afterwards no key has an entry —
so the next `ec2` fetch misses and invokes the backend. -/
theorem c8_clear_then_fetch (c : Cache) (k : String) (now : Nat)
    (b : BackendResult) :
    cacheFind (clearCache c) k = none ∧
      (fetchData "ec2" (clearCache c) now b).invoked = true := by
  refine ⟨rfl, ?_⟩
  cases b <;> simp [fetchData, clearCache, getCache, cacheFind]

/-- C1: for the supported category `"ec2"`: a cache entry whose age
`now - timestamp` is at most `CACHE_TTL` is served as-is with
`fromCache = true`, `loading = false`, `error = none` and no backend
invocation; an absent entry triggers a backend fetch; an entry older than
the TTL is pruned by the read (`getCache` deletes it and reports a miss)
and a backend fetch is performed. -/
theorem c1_ttl_hit_miss (c : Cache) (now : Nat) (b : BackendResult)
    (e : CacheEntry) :
    (cacheFind c (cacheKey "ec2") = some e → now - e.timestamp ≤ CACHE_TTL →
      fetchData "ec2" c now b =
        ⟨⟨e.data, false, none, true, some (now - e.timestamp)⟩, c, false⟩) ∧
    (cacheFind c (cacheKey "ec2") = none →
      (fetchData "ec2" c now b).invoked = true) ∧
    (cacheFind c (cacheKey "ec2") = some e → CACHE_TTL < now - e.timestamp →
      getCache c (cacheKey "ec2") now = (none, cacheDelete c (cacheKey "ec2")) ∧
      (fetchData "ec2" c now b).invoked = true) := by
  refine ⟨fun h1 h2 => ?_, fun h1 => ?_, fun h1 h2 => ?_⟩
  · have hc : ¬ CACHE_TTL < now - e.timestamp := by omega
    have hg : getCache c (cacheKey "ec2") now = (some e.data, c) := by
      simp [getCache, h1, hc]
    have ha : getCacheAge c (cacheKey "ec2") now =
        (some (now - e.timestamp), c) := by
      simp [getCacheAge, h1, hc]
    simp [fetchData, hg, ha]
  · have hg : getCache c (cacheKey "ec2") now = (none, c) := by
      simp [getCache, h1]
    cases b <;> simp [fetchData, hg]
  · have hg : getCache c (cacheKey "ec2") now =
        (none, cacheDelete c (cacheKey "ec2")) := by
      simp [getCache, h1, h2]
    exact ⟨hg, by cases b <;> simp [fetchData, hg]⟩

theorem c1_ttl_hit_miss_witness :
    (cacheFind [(cacheKey "ec2", ⟨[], 0⟩)] (cacheKey "ec2") = some ⟨[], 0⟩ ∧
      100 - (0 : Nat) ≤ CACHE_TTL ∧
      fetchData "ec2" [(cacheKey "ec2", ⟨[], 0⟩)] 100 (.thrown .nonError) =
        ⟨⟨[], false, none, true, some (100 - 0)⟩,
          [(cacheKey "ec2", ⟨[], 0⟩)], false⟩) ∧
    (cacheFind ([] : Cache) (cacheKey "ec2") = none ∧
      (fetchData "ec2" [] 100 (.ok [])).invoked = true) ∧
    (cacheFind [(cacheKey "ec2", ⟨[], 0⟩)] (cacheKey "ec2") = some ⟨[], 0⟩ ∧
      CACHE_TTL < 300001 - (0 : Nat) ∧
      getCache [(cacheKey "ec2", ⟨[], 0⟩)] (cacheKey "ec2") 300001 =
        (none, cacheDelete [(cacheKey "ec2", ⟨[], 0⟩)] (cacheKey "ec2")) ∧
      (fetchData "ec2" [(cacheKey "ec2", ⟨[], 0⟩)] 300001 (.ok [])).invoked =
        true) :=
  ⟨⟨by decide, by decide,
      (c1_ttl_hit_miss [(cacheKey "ec2", ⟨[], 0⟩)] 100 (.thrown .nonError)
        ⟨[], 0⟩).1 (by decide) (by decide)⟩,
    ⟨by decide,
      (c1_ttl_hit_miss [] 100 (.ok []) ⟨[], 0⟩).2.1 (by decide)⟩,
    ⟨by decide, by decide,
      (c1_ttl_hit_miss [(cacheKey "ec2", ⟨[], 0⟩)] 300001 (.ok [])
        ⟨[], 0⟩).2.2 (by decide) (by decide)⟩⟩

/-- C6: when the backend call throws an `Error` with message `m` — inside
the data-loading effect (which only calls the backend on a cache miss) or
inside `refresh` — no cache entry is written or overwritten: an
absent-entry miss leaves the cache exactly as it was, an expired-entry
miss only prunes that expired entry (the key then has no entry and every
other key is untouched), and `refresh` leaves the cache exactly as it was;
in every case the returned state is
`{data = [], loading = false, error = some m}`. -/
theorem c6_failure_no_cache_write (c : Cache) (now : Nat) (m : String)
    (prior : FetchState) (e : CacheEntry) :
    (cacheFind c (cacheKey "ec2") = none →
      fetchData "ec2" c now (.thrown (.errObj m)) =
        ⟨⟨[], false, some m, false, none⟩, c, true⟩) ∧
    (cacheFind c (cacheKey "ec2") = some e → CACHE_TTL < now - e.timestamp →
      fetchData "ec2" c now (.thrown (.errObj m)) =
        ⟨⟨[], false, some m, false, none⟩,
          cacheDelete c (cacheKey "ec2"), true⟩ ∧
      cacheFind (cacheDelete c (cacheKey "ec2")) (cacheKey "ec2") = none ∧
      (∀ k, k ≠ cacheKey "ec2" →
        cacheFind (cacheDelete c (cacheKey "ec2")) k = cacheFind c k)) ∧
    (refreshRun "ec2" prior c now (.thrown (.errObj m)) =
      ⟨⟨[], false, some m, false, none⟩, c, true⟩) := by
  refine ⟨fun h1 => ?_, fun h1 h2 => ?_, ?_⟩
  · have hg : getCache c (cacheKey "ec2") now = (none, c) := by
      simp [getCache, h1]
    simp [fetchData, hg, errorMessage]
  · have hg : getCache c (cacheKey "ec2") now =
        (none, cacheDelete c (cacheKey "ec2")) := by
      simp [getCache, h1, h2]
    exact ⟨by simp [fetchData, hg, errorMessage],
      cacheFind_delete_self c (cacheKey "ec2"),
      fun k hk => cacheFind_delete_ne c (cacheKey "ec2") k hk⟩
  · simp [refreshRun, errorMessage]

theorem c6_failure_no_cache_write_witness :
    (cacheFind ([] : Cache) (cacheKey "ec2") = none ∧
      fetchData "ec2" [] 100 (.thrown (.errObj "boom")) =
        ⟨⟨[], false, some "boom", false, none⟩, [], true⟩) ∧
    (cacheFind [(cacheKey "ec2", ⟨[], 0⟩)] (cacheKey "ec2") = some ⟨[], 0⟩ ∧
      CACHE_TTL < 300001 - (0 : Nat) ∧
      fetchData "ec2" [(cacheKey "ec2", ⟨[], 0⟩)] 300001
          (.thrown (.errObj "boom")) =
        ⟨⟨[], false, some "boom", false, none⟩,
          cacheDelete [(cacheKey "ec2", ⟨[], 0⟩)] (cacheKey "ec2"), true⟩) ∧
    (refreshRun "ec2" ⟨[], false, none, false, none⟩ [] 100
        (.thrown (.errObj "boom")) =
      ⟨⟨[], false, some "boom", false, none⟩, [], true⟩) :=
  ⟨⟨by decide,
      (c6_failure_no_cache_write [] 100 "boom" ⟨[], false, none, false, none⟩
        ⟨[], 0⟩).1 (by decide)⟩,
    ⟨by decide, by decide,
      ((c6_failure_no_cache_write [(cacheKey "ec2", ⟨[], 0⟩)] 300001 "boom"
        ⟨[], false, none, false, none⟩ ⟨[], 0⟩).2.1 (by decide) (by decide)).1⟩,
    (c6_failure_no_cache_write [] 100 "boom" ⟨[], false, none, false, none⟩
      ⟨[], 0⟩).2.2⟩

/-- C4: the provider factory maps mode `sdk` to the SDK provider, `cli`
to the CLI provider and `auto` to the SDK provider; any configured
backend-mode string whose (lowercased, per the source's `toLowerCase`)
value is nonempty and outside {sdk, cli, auto} makes `create` return a
configuration error at resolution time, before any provider method could
be called. -/
theorem c4_backend_selector (s : String)
    (h : strToLower s ∉ ["", "sdk", "cli", "auto"]) :
    create (some "sdk") = .ok .sdkProvider ∧
    create (some "cli") = .ok .cliProvider ∧
    create (some "auto") = .ok .sdkProvider ∧
    create (some s) = .error ("Invalid A3S_BACKEND: " ++ strToLower s ++
      ". Must be one of: sdk, cli, auto") := by
  refine ⟨rfl, rfl, rfl, ?_⟩
  obtain ⟨h0, h1, h2, h3⟩ :
      strToLower s ≠ "" ∧ strToLower s ≠ "sdk" ∧ strToLower s ≠ "cli" ∧
        strToLower s ≠ "auto" := by
    simpa using h
  have hg : getBackendType (some s) = .error ("Invalid A3S_BACKEND: " ++
      strToLower s ++ ". Must be one of: sdk, cli, auto") := by
    simp [getBackendType, h0, validBackends, h1, h2, h3]
  simp [create, hg]

theorem c4_backend_selector_witness :
    strToLower "foo" ∉ ["", "sdk", "cli", "auto"] ∧
      (create (some "sdk") = .ok .sdkProvider ∧
        create (some "cli") = .ok .cliProvider ∧
        create (some "auto") = .ok .sdkProvider ∧
        create (some "foo") = .error ("Invalid A3S_BACKEND: " ++
          strToLower "foo" ++ ". Must be one of: sdk, cli, auto")) :=
  ⟨by decide, c4_backend_selector "foo" (by decide)⟩

/-- C3: with the navigation listener L1 (`navHandler`, registered first)
and the view listener L2 (`listHandler`, registered second) both active,
a back-class key (left-arrow / escape) makes only L2 act (L1's callback
matches nothing), a movement key (up / down / k / j) or a confirm key
(return, with an `onSelect` supplied) makes only L1 act (L2's callback
matches nothing), an inactive listener never acts on any key, and no key
event generated by the runtime is acted on by both listeners. -/
theorem c3_listener_arbitration (k : InkKey) (hs hq hr he : Bool) :
    ((k = .left ∨ k = .esc) →
      dispatch true (navHandler hs hq) (keyEvent k) = none ∧
      dispatch true (listHandler true hr he) (keyEvent k) = some .goBack) ∧
    ((k = .up ∨ k = .down ∨ k = .char "k" ∨ k = .char "j" ∨
        (k = .enter ∧ hs = true)) →
      ∀ hb, (dispatch true (navHandler hs hq) (keyEvent k)).isSome = true ∧
        dispatch true (listHandler hb hr he) (keyEvent k) = none) ∧
    (∀ (α : Type) (h : KeyEvent → Option α),
      dispatch false h (keyEvent k) = none) ∧
    (∀ hb, ¬((navHandler hs hq (keyEvent k)).isSome = true ∧
      (listHandler hb hr he (keyEvent k)).isSome = true)) := by
  refine ⟨?_, ?_, fun α h => rfl, ?_⟩
  · rintro (rfl | rfl) <;>
      simp [dispatch, navHandler, listHandler, keyEvent]
  · rintro (rfl | rfl | rfl | rfl | ⟨rfl, rfl⟩) <;> intro hb <;>
      simp [dispatch, navHandler, listHandler, keyEvent]
  · intro hb
    cases k with
    | char c =>
      rintro ⟨hn, hl⟩
      by_cases hc : c = "r"
      · subst hc
        simp [navHandler, keyEvent] at hn
      · simp [listHandler, keyEvent, hc] at hl
    | up => rintro ⟨hn, hl⟩; simp [listHandler, keyEvent] at hl
    | down => rintro ⟨hn, hl⟩; simp [listHandler, keyEvent] at hl
    | left => rintro ⟨hn, hl⟩; simp [navHandler, keyEvent] at hn
    | esc => rintro ⟨hn, hl⟩; simp [navHandler, keyEvent] at hn
    | enter => rintro ⟨hn, hl⟩; simp [listHandler, keyEvent] at hl

theorem c3_listener_arbitration_witness :
    (dispatch true (navHandler false true) (keyEvent .left) = none ∧
      dispatch true (listHandler true true false) (keyEvent .left) =
        some .goBack) ∧
    ((dispatch true (navHandler false true) (keyEvent .up)).isSome = true ∧
      dispatch true (listHandler true true false) (keyEvent .up) = none) ∧
    dispatch false (navHandler false true) (keyEvent .down) = none :=
  ⟨(c3_listener_arbitration .left false true true false).1 (Or.inl rfl),
    (c3_listener_arbitration .up false true true false).2.1 (Or.inl rfl) true,
    (c3_listener_arbitration .down false true true false).2.2.1 NavAction
      (navHandler false true)⟩

end A3S
